import Mathlib

set_option maxRecDepth 1000000

/-!
Verification development for the pharmaceutical-intelligence orchestration
engine (master_agent.py, memory_manager.py).  The Python code is shallowly
embedded: pure helpers become Lean functions over `String`/`List`, Python
values flowing through the visual generator become the `PyVal` inductive,
and code that can raise returns `Except String`.  All definitions are
translated from the source files; functions are structural so that closed
instances evaluate by `rfl`/`decide`.
-/

/- ### Python string primitives
In Lean 4.14 a `String` wraps a `List Char`, matching Python's sequence-of
code-points view, so `String.length`, slicing by `List.take` and so on agree
with Python `len` and `s[:n]`. -/

/-- Python `str.isspace` characters relevant to `str.strip`/`str.split`
(ASCII whitespace; the repository only handles ASCII queries). -/
def pyIsSpace (c : Char) : Bool :=
  c == ' ' || c == '\t' || c == '\n' || c == '\r' || c == '\x0b' || c == '\x0c'

/-- Python `s.strip()`: drop leading and trailing whitespace. -/
def pyStrip (s : String) : String :=
  String.mk (((s.data.dropWhile pyIsSpace).reverse.dropWhile pyIsSpace).reverse)

/-- Python `s[:n]` on strings. -/
def pyTake (s : String) (n : Nat) : String :=
  String.mk (s.data.take n)

/-- Whether the first list is an initial segment of the second. -/
def leadsList : List Char → List Char → Bool
  | [], _ => true
  | _ :: _, [] => false
  | a :: as, b :: bs => a == b && leadsList as bs

/-- Occurrence of `needle` as a contiguous sublist of `hay`
(Python `needle in hay` on strings, on the char lists). -/
def listContains (hay needle : List Char) : Bool :=
  match hay with
  | [] => needle.isEmpty
  | _ :: t => leadsList needle hay || listContains t needle

/-- Python substring test `pat in s`. -/
def strContains (s pat : String) : Bool :=
  listContains s.data pat.data

/-- Python `s.lower()` (ASCII case folding, as used by the queries and
keyword lists of this repository). -/
def pyLower (s : String) : String :=
  String.mk (s.data.map Char.toLower)

/-- Replace every non-overlapping occurrence of `pat` (nonempty) in the
scanned list, left to right; `fuel` bounds the scan and is instantiated
with the list length. -/
def replaceList (pat rep : List Char) : Nat → List Char → List Char
  | _, [] => []
  | 0, l => l
  | fuel + 1, c :: cs =>
    if !pat.isEmpty && leadsList pat (c :: cs) then
      rep ++ replaceList pat rep fuel (List.drop pat.length (c :: cs))
    else
      c :: replaceList pat rep fuel cs

/-- Python `s.replace(pat, rep)`.  The source never replaces an empty
pattern, which is left as the identity here. -/
def pyReplace (s pat rep : String) : String :=
  if pat.isEmpty then s
  else String.mk (replaceList pat.data rep.data s.data.length s.data)

/-- Python `s.startswith(pat)`. -/
def startsWithStr (s pat : String) : Bool :=
  leadsList pat.data s.data

/-- Helper for `pySplit`: accumulate the current word (reversed) while
scanning; words are maximal runs of non-whitespace. -/
def pySplitAux : List Char → List Char → List String
  | [], acc => if acc.isEmpty then [] else [String.mk acc.reverse]
  | c :: cs, acc =>
    if pyIsSpace c then
      if acc.isEmpty then pySplitAux cs []
      else String.mk acc.reverse :: pySplitAux cs []
    else pySplitAux cs (c :: acc)

/-- Python `s.split()` with no argument: split on whitespace runs,
discarding empty words. -/
def pySplit (s : String) : List String :=
  pySplitAux s.data []

/- ### Intent Gate: preflight_node (master_agent.py) -/

/-- Result record of `preflight_node`: the `skip_pipeline` flag and the
canned `preflight_response`. -/
structure PreflightResult where
  skip_pipeline : Bool
  preflight_response : String
deriving DecidableEq, Repr

/-- The fixed domain-keyword list from `preflight_node` (master_agent.py). -/
def pharma_keywords : List String :=
  ["drug", "medicine", "pharma", "clinical", "trial", "trials", "patent", "patents",
   "market", "import", "export", "api", "sales", "iqvia", "exim", "cancer", "diabetes",
   "cardio", "neuro", "immuno", "oncology", "vaccine", "therapeutic", "fda",
   "approval", "pipeline", "competitor", "generic", "biosimilar", "molecule", "data",
   "show", "tell", "give", "find", "search", "list", "get", "fetch", "display",
   "news", "latest", "recent", "article", "web", "look up", "lookup", "information"]

/-- Single-word greeting set (exact word match). -/
def greetings : List String :=
  ["hello", "hi", "hey", "howdy", "greetings", "yo", "sup", "hiya", "heya"]

/-- Multi-word greeting phrases (matched as a query head). -/
def greeting_phrases : List String :=
  ["good morning", "good afternoon", "good evening", "good day"]

/-- Casual conversation phrases (containment match). -/
def casual_patterns : List String :=
  ["whats up", "what is up", "what up", "wassup", "wazzup",
   "how are you", "how r u", "hows it going", "how is it going",
   "whats going on", "what is going on", "whats new", "what is new",
   "how do you do", "hows your day", "how is your day",
   "nice to meet you", "pleased to meet you"]

/-- Identity-question phrases (containment match). -/
def identity_questions : List String :=
  ["who are you", "what are you", "what is your name", "whats your name",
   "what can you do", "what do you do", "what is gloser", "whats gloser",
   "tell me about yourself", "introduce yourself"]

/-- Thanks phrases (word or containment match). -/
def thanks_words : List String :=
  ["thank you", "thanks", "thx", "appreciated", "cheers", "ty"]

/-- Farewell phrases (word or whole-query match). -/
def farewells : List String :=
  ["bye", "goodbye", "see you", "later", "take care", "cya", "ttyl"]

/-- Canned greeting response. -/
def greeting_response : String :=
  "Hello! I\x27m Gloser AI, your pharmaceutical intelligence assistant. I can help you analyze market data, clinical trials, patents, and import/export trade information. What would you like to know?"

/-- Canned casual-conversation response. -/
def casual_response : String :=
  "Hey there! I\x27m doing great, thanks for asking! 😊\n\nI\x27m Gloser AI, ready to help you with pharmaceutical market intelligence. I can analyze:\n\n• **Clinical Trials** - Find trials by drug, phase, or indication\n• **Market Data** - Market sizes, growth rates, competition\n• **Patents** - Patent status, expiry dates, assignees\n• **Trade Data** - Import/export volumes for APIs\n\nWhat would you like to explore today?"

/-- Canned identity response. -/
def identity_response : String :=
  "I\x27m Gloser AI, a pharmaceutical market intelligence platform. I can help you with:\n\n• **Market Analysis** - Market sizes, CAGR, competitors by therapeutic area\n• **Clinical Trials** - Trial phases, sponsors, recruitment status\n• **Patent Landscape** - Patent filings, expiry dates, assignees\n• **Trade Data** - Import/export volumes for pharmaceutical APIs\n\nJust ask me anything about the pharmaceutical industry!"

/-- Canned thanks response. -/
def thanks_response : String :=
  "You\x27re welcome! Let me know if you have any other questions about the pharmaceutical market."

/-- Canned farewell response. -/
def farewell_response : String :=
  "Goodbye! Feel free to come back anytime you need pharmaceutical market insights. Take care! 👋"

/-- Canned clarification request for too-vague queries. -/
def clarify_response : String :=
  "I\x27d be happy to help! Could you please be more specific about what pharmaceutical information you\x27re looking for?\n\nFor example, you could ask:\n• \"Show me clinical trials for diabetes\"\n• \"What\x27s the market size for oncology drugs?\"\n• \"Find patents for metformin\"\n• \"Export data for paracetamol API\""

/-- Query normalisation performed at the top of `preflight_node`:
lowercase, strip, then remove apostrophes and `?`/`!` and strip again. -/
def normalize_query (input_query : String) : String :=
  let query := pyStrip (pyLower input_query)
  pyStrip (pyReplace (pyReplace (pyReplace query "\x27" "") "?" "") "!" "")

/-- Embedding of `preflight_node` (master_agent.py): classifies a query,
either short-circuiting the pipeline with a canned response or letting the
full pipeline run.  The domain-keyword test comes first; the remaining
category rules fire in source order. -/
def preflight_node (input_query : String) : PreflightResult :=
  let query_normalized := normalize_query input_query
  let query_words := pySplit query_normalized
  if pharma_keywords.any (fun kw => strContains query_normalized kw) then
    ⟨false, ""⟩
  else if greetings.any (fun g => query_words.contains g || query_normalized == g) then
    ⟨true, greeting_response⟩
  else if greeting_phrases.any (fun p => startsWithStr query_normalized p) then
    ⟨true, greeting_response⟩
  else if casual_patterns.any (fun c => strContains query_normalized c || query_normalized == c) then
    ⟨true, casual_response⟩
  else if identity_questions.any (fun i => strContains query_normalized i) then
    ⟨true, identity_response⟩
  else if thanks_words.any (fun t => query_words.contains t || strContains query_normalized t) then
    ⟨true, thanks_response⟩
  else if farewells.any (fun f => query_words.contains f || query_normalized == f) then
    ⟨true, farewell_response⟩
  else if ((pySplit query_normalized).filter (fun w => w.length > 2)).length < 2 then
    ⟨true, clarify_response⟩
  else
    ⟨false, ""⟩

/- ### Claims C3 and C10: the Intent Gate -/

/-- C3: for every query string in which any domain keyword of the fixed
keyword list appears as a substring of the normalized query, the preflight
classifier returns `skip_pipeline = false` (and an empty canned response),
regardless of any greeting, casual, identity, thanks, farewell, or
vague-query rule that would otherwise match: the domain-keyword test is the
first rule of `preflight_node`. -/
theorem C3_domain_keyword_overrides (q : String)
    (h : pharma_keywords.any (fun kw => strContains (normalize_query q) kw) = true) :
    preflight_node q = ⟨false, ""⟩ := by
  unfold preflight_node
  simp [h]

/-- Witness for C3 at the spec's own example query, whose normalized form
contains the domain keywords "trial" and "data". -/
theorem C3_witness :
    (pharma_keywords.any
      (fun kw => strContains (normalize_query "hello, any trial data on Metformin?") kw) = true)
    ∧ preflight_node "hello, any trial data on Metformin?" = ⟨false, ""⟩ :=
  ⟨by decide, C3_domain_keyword_overrides _ (by decide)⟩

/-- C10: the fixed domain-keyword list includes the generic request words
'show', 'tell', 'give', 'get', 'data', 'information', 'news'; consequently
the purely social identity question "tell me about yourself" — which is in
the identity-question list and whose normalized form contains an
identity-question phrase — is classified with `skip_pipeline = false`
(the full pipeline runs) instead of the canned identity response. -/
theorem C10_generic_request_words :
    (["show", "tell", "give", "get", "data", "information", "news"].all
       (fun w => pharma_keywords.contains w)) = true
    ∧ "tell me about yourself" ∈ identity_questions
    ∧ strContains (normalize_query "tell me about yourself") "tell me about yourself" = true
    ∧ preflight_node "tell me about yourself" = ⟨false, ""⟩ :=
  ⟨by decide, by decide, by decide, by decide⟩

/- ### Memory Store: MemoryManager (memory_manager.py) -/

/-- A chat message (memory_manager.py `ChatMessage`).  The wall-clock
`timestamp` field is impure and never read by any code path modelled here,
so it is omitted. -/
structure ChatMessage where
  role : String
  content : String
  has_visuals : Bool
deriving DecidableEq, Repr

/-- Per-session conversation memory (memory_manager.py
`ConversationMemory`). -/
structure ConversationMemory where
  session_id : String
  messages : List ChatMessage := []
  summary : String := ""
  key_entities : List String := []
  last_query_context : String := ""
  total_exchanges : Nat := 0
deriving DecidableEq, Repr

/-- MemoryManager.SHORT_TERM_LIMIT. -/
def SHORT_TERM_LIMIT : Nat := 4

/-- MemoryManager.SUMMARY_TRIGGER. -/
def SUMMARY_TRIGGER : Nat := 6

/-- MemoryManager.MAX_SUMMARY_LENGTH. -/
def MAX_SUMMARY_LENGTH : Nat := 500

/-- A fresh `ConversationMemory` as created by `get_or_create_session`. -/
def fresh_session (sid : String) : ConversationMemory :=
  { session_id := sid }

/-- Stop-list of capitalized interrogatives/auxiliaries excluded by
`_extract_entities`. -/
def entity_stoplist : List String :=
  ["I", "The", "What", "How", "Why", "When", "Where", "Can", "Could",
   "Would", "Should", "Is", "Are", "Do", "Does"]

/-- Python `''.join(c for c in word if c.isalnum())`. -/
def clean_word (w : String) : String :=
  String.mk (w.data.filter Char.isAlphanum)

/-- Embedding of `MemoryManager._extract_entities`: keep capitalized words
longer than 2 characters that are not stop-listed, strip non-alphanumerics,
dedupe, and cap at 5 per message. -/
def extract_entities (text : String) : List String :=
  let entities := (pySplit text).foldl
    (fun acc w =>
      if w.length > 2 && (w.data.headD ' ').isUpper && !entity_stoplist.contains w then
        let c := clean_word w
        if c != "" && !acc.contains c then acc ++ [c] else acc
      else acc)
    []
  entities.take 5

/-- The per-entity dedupe-append loop of `add_message`, followed by the
cap of the TopicSet at the most recent 10 entries. -/
def update_entities (existing new_entities : List String) : List String :=
  let ks := new_entities.foldl
    (fun acc e => if acc.contains e then acc else acc ++ [e]) existing
  ks.drop (ks.length - 10)

/-- Summary contribution of one folded message
(`_compress_old_messages` loop body). -/
def summarize_message (m : ChatMessage) : String :=
  if m.role == "user" then "User asked about: " ++ pyTake m.content 100
  else "Assistant provided: " ++ pyTake m.content 150 ++ "..."

/-- Embedding of `MemoryManager._compress_old_messages`: when more than
`SHORT_TERM_LIMIT * 2` messages are stored, fold all but the most recent
8 into the rolling summary (prepending any prior summary), truncating the
joined string to `MAX_SUMMARY_LENGTH` characters plus an ellipsis when it
overflows. -/
def compress_old_messages (session : ConversationMemory) : ConversationMemory :=
  if session.messages.length ≤ SHORT_TERM_LIMIT * 2 then session
  else
    let messages_to_summarize :=
      session.messages.take (session.messages.length - SHORT_TERM_LIMIT * 2)
    let summary_parts :=
      (if session.summary != "" then [session.summary] else [])
        ++ messages_to_summarize.map summarize_message
    let full_summary := String.intercalate " | " summary_parts
    let full_summary :=
      if full_summary.length > MAX_SUMMARY_LENGTH then
        pyTake full_summary MAX_SUMMARY_LENGTH ++ "..."
      else full_summary
    { session with
        summary := full_summary,
        messages := session.messages.drop (session.messages.length - SHORT_TERM_LIMIT * 2) }

/-- Embedding of `MemoryManager.add_message` on one session: append the
message, recount `total_exchanges` as the number of user messages now
stored, extract entities from user messages, then compress when more than
`SUMMARY_TRIGGER` messages are stored. -/
def add_message (session : ConversationMemory) (role content : String)
    (has_visuals : Bool) : ConversationMemory :=
  let msg : ChatMessage := ⟨role, content, has_visuals⟩
  let s1 := { session with
      messages := session.messages ++ [msg],
      total_exchanges :=
        ((session.messages ++ [msg]).filter (fun m => m.role == "user")).length,
      key_entities :=
        if role == "user" then
          update_entities session.key_entities (extract_entities content)
        else session.key_entities }
  if s1.messages.length > SUMMARY_TRIGGER then compress_old_messages s1 else s1

/-- The MemoryManager's session map, in insertion order (a Python dict
keyed by session id). -/
abbrev MMState := List (String × ConversationMemory)

/-- Embedding of `MemoryManager.get_or_create_session`: return the stored
session, or insert and return a fresh one. -/
def get_or_create_session (st : MMState) (sid : String) :
    ConversationMemory × MMState :=
  match st.find? (fun p => p.1 == sid) with
  | some p => (p.2, st)
  | none => (fresh_session sid, st ++ [(sid, fresh_session sid)])

/-- Manager-level `add_message(session_id, role, content, has_visuals)`:
get-or-create the session, then update it in place. -/
def mm_add_message (st : MMState) (sid role content : String)
    (has_visuals : Bool) : MMState :=
  let st1 := (get_or_create_session st sid).2
  st1.map (fun p => if p.1 == sid then (p.1, add_message p.2 role content has_visuals) else p)

/-- Embedding of `MemoryManager.clear_session`: delete the entry when
present, otherwise do nothing. -/
def clear_session (st : MMState) (sid : String) : MMState :=
  if st.any (fun p => p.1 == sid) then st.filter (fun p => !(p.1 == sid)) else st

/-- Statistics record returned by `get_session_stats`. -/
structure SessionStats where
  session_id : String
  total_messages : Nat
  total_exchanges : Nat
  has_summary : Bool
  key_entities_count : Nat
  key_entities : List String
deriving DecidableEq, Repr

/-- Embedding of `MemoryManager.get_session_stats`: get-or-create the
session (also returning the possibly-grown map) and report its statistics. -/
def get_session_stats (st : MMState) (sid : String) : SessionStats × MMState :=
  let (session, st1) := get_or_create_session st sid
  (⟨sid, session.messages.length, session.total_exchanges,
    session.summary != "", session.key_entities.length, session.key_entities⟩, st1)

/-- A sequence of `add_message` calls against the manager, each being
(session id, role, content, has_visuals), starting from an empty map. -/
def run_calls (calls : List (String × String × String × Bool)) : MMState :=
  calls.foldl (fun st c => mm_add_message st c.1 c.2.1 c.2.2.1 c.2.2.2) []

/- ### Memory invariants (claims C2, C8, C9, C6) -/

/-- Length of a Python-style string slice. -/
theorem length_pyTake (s : String) (n : Nat) : (pyTake s n).length = min n s.length := by
  simp [pyTake, String.length_mk]

/-- The final truncation step of `_compress_old_messages` caps the summary
at 500 characters plus the 3-character ellipsis. -/
theorem overflow_cap (full : String) :
    (if full.length > MAX_SUMMARY_LENGTH then pyTake full MAX_SUMMARY_LENGTH ++ "..." else full).length ≤ 503 := by
  split
  · rename_i hgt
    rw [String.length_append, length_pyTake]
    have h3 : ("..." : String).length = 3 := rfl
    rw [h3]
    simp only [MAX_SUMMARY_LENGTH] at *
    omega
  · rename_i hle
    simp only [MAX_SUMMARY_LENGTH] at hle
    omega

/-- Compression preserves the 503-character summary bound. -/
theorem compress_summary_le (s : ConversationMemory) (h : s.summary.length ≤ 503) :
    (compress_old_messages s).summary.length ≤ 503 := by
  unfold compress_old_messages
  split
  · exact h
  · exact overflow_cap _

/-- Compression of a session holding at most 9 messages leaves at most 8. -/
theorem compress_messages_le (s : ConversationMemory) (h : s.messages.length ≤ 9) :
    (compress_old_messages s).messages.length ≤ 8 := by
  unfold compress_old_messages
  split
  · rename_i hle
    simp only [SHORT_TERM_LIMIT] at hle
    omega
  · show (s.messages.drop (s.messages.length - SHORT_TERM_LIMIT * 2)).length ≤ 8
    rw [List.length_drop]
    simp only [SHORT_TERM_LIMIT]
    omega

/-- Compression never touches the exchange counter. -/
theorem compress_total_exchanges (s : ConversationMemory) :
    (compress_old_messages s).total_exchanges = s.total_exchanges := by
  unfold compress_old_messages
  split <;> rfl

/-- The compression trigger of `add_message` restores both memory bounds. -/
theorem trigger_inv (t : ConversationMemory) (h1 : t.summary.length ≤ 503)
    (h2 : t.messages.length ≤ 9) :
    (if t.messages.length > SUMMARY_TRIGGER then compress_old_messages t else t).summary.length ≤ 503
    ∧ (if t.messages.length > SUMMARY_TRIGGER then compress_old_messages t else t).messages.length ≤ 8 := by
  split
  · exact ⟨compress_summary_le _ h1, compress_messages_le _ h2⟩
  · rename_i hng
    simp only [SUMMARY_TRIGGER] at hng
    exact ⟨h1, by omega⟩

/-- One `add_message` call preserves the summary and message bounds. -/
theorem add_message_inv (s : ConversationMemory) (r c : String) (v : Bool)
    (h1 : s.summary.length ≤ 503) (h2 : s.messages.length ≤ 8) :
    (add_message s r c v).summary.length ≤ 503 ∧ (add_message s r c v).messages.length ≤ 8 :=
  trigger_inv _ h1
    (by simp only [List.length_append, List.length_cons, List.length_nil]; omega)

/-- One manager-level `add_message` call preserves the bounds for every
stored session. -/
theorem mm_add_inv (st : MMState) (sid r c : String) (v : Bool)
    (h : ∀ p ∈ st, p.2.summary.length ≤ 503 ∧ p.2.messages.length ≤ 8) :
    ∀ p ∈ mm_add_message st sid r c v,
      p.2.summary.length ≤ 503 ∧ p.2.messages.length ≤ 8 := by
  intro p hp
  unfold mm_add_message at hp
  rw [List.mem_map] at hp
  obtain ⟨q, hq, rfl⟩ := hp
  have hq2 : q.2.summary.length ≤ 503 ∧ q.2.messages.length ≤ 8 := by
    unfold get_or_create_session at hq
    cases hfind : st.find? (fun p => p.1 == sid) with
    | some pp =>
      rw [hfind] at hq
      exact h q hq
    | none =>
      rw [hfind] at hq
      rcases List.mem_append.mp hq with hin | hnew
      · exact h q hin
      · have : q = (sid, fresh_session sid) := by simpa using hnew
        subst this
        exact ⟨by simp [fresh_session], by simp [fresh_session]⟩
  by_cases hc : (q.1 == sid) = true
  · simp only [hc, if_true]
    exact add_message_inv _ _ _ _ hq2.1 hq2.2
  · simp only [hc, if_false]
    exact hq2

/-- Every session stored after any sequence of manager-level `add_message`
calls has a summary of at most 503 characters and at most 8 stored
messages. -/
theorem run_calls_inv (calls : List (String × String × String × Bool)) :
    ∀ p ∈ run_calls calls, p.2.summary.length ≤ 503 ∧ p.2.messages.length ≤ 8 := by
  have main : ∀ (cs : List (String × String × String × Bool)) (st : MMState),
      (∀ p ∈ st, p.2.summary.length ≤ 503 ∧ p.2.messages.length ≤ 8) →
      ∀ p ∈ cs.foldl (fun st c => mm_add_message st c.1 c.2.1 c.2.2.1 c.2.2.2) st,
        p.2.summary.length ≤ 503 ∧ p.2.messages.length ≤ 8 := by
    intro cs
    induction cs with
    | nil => intro st h; exact h
    | cons cc cs ih =>
      intro st h
      exact ih _ (mm_add_inv _ _ _ _ _ h)
  exact main calls [] (by simp)

/-- A user message of exactly 100 characters (its folded summary
contribution is 118 characters). -/
def long_user_text : String := String.mk (List.replicate 100 'm')

/-- An assistant message of exactly 150 characters (its folded summary
contribution is 173 characters). -/
def long_assistant_text : String := String.mk (List.replicate 150 'm')

/-- Twelve alternating long messages on one session: enough folds for the
rolling summary to overflow and be truncated to 500 characters plus the
ellipsis. -/
def c2_calls : List (String × String × String × Bool) :=
  [("s", "user", long_user_text, false), ("s", "assistant", long_assistant_text, false),
   ("s", "user", long_user_text, false), ("s", "assistant", long_assistant_text, false),
   ("s", "user", long_user_text, false), ("s", "assistant", long_assistant_text, false),
   ("s", "user", long_user_text, false), ("s", "assistant", long_assistant_text, false),
   ("s", "user", long_user_text, false), ("s", "assistant", long_assistant_text, false),
   ("s", "user", long_user_text, false), ("s", "assistant", long_assistant_text, false)]

/-- C2 counterexample: after this concrete sequence of `add_message` calls
the stored RollingSummary is 503 characters long, exceeding the claimed
500-character bound (truncation appends "..." after the 500-character
cut). -/
theorem C2_counterexample :
    ∃ p ∈ run_calls c2_calls, 500 < p.2.summary.length := by decide

/-- C2 as amended: after any sequence of `add_message` calls, every stored
session's RollingSummary is at most 503 characters (the 500-character
truncation plus the 3-character ellipsis) and holds at most 16 verbatim
messages. -/
theorem C2_amended_bounds (calls : List (String × String × String × Bool))
    (p : String × ConversationMemory) (hp : p ∈ run_calls calls) :
    p.2.summary.length ≤ 503 ∧ p.2.messages.length ≤ 16 :=
  ⟨(run_calls_inv calls p hp).1, le_trans (run_calls_inv calls p hp).2 (by omega)⟩

/-- Witness for C2 as amended, at a concrete one-call run. -/
theorem C2_witness :
    ("w2", add_message (fresh_session "w2") "user" "summary bound check run" false)
        ∈ run_calls [("w2", "user", "summary bound check run", false)]
    ∧ (add_message (fresh_session "w2") "user" "summary bound check run" false).summary.length ≤ 503
    ∧ (add_message (fresh_session "w2") "user" "summary bound check run" false).messages.length ≤ 16 :=
  ⟨by decide,
   C2_amended_bounds [("w2", "user", "summary bound check run", false)]
     ("w2", add_message (fresh_session "w2") "user" "summary bound check run" false)
     (by decide)⟩

/-- C8: after every `add_message` call, every stored session holds at most
8 verbatim messages (SHORT_TERM_LIMIT * 2) — strictly tighter than the 16
the spec promises — because compression runs whenever the count exceeds
SUMMARY_TRIGGER (6) and keeps only the most recent 8. -/
theorem C8_messages_bound (calls : List (String × String × String × Bool))
    (p : String × ConversationMemory) (hp : p ∈ run_calls calls) :
    p.2.messages.length ≤ 8 :=
  (run_calls_inv calls p hp).2

/-- Witness for C8 at a concrete one-call run. -/
theorem C8_witness :
    ("w8", add_message (fresh_session "w8") "user" "eight message cap check" false)
        ∈ run_calls [("w8", "user", "eight message cap check", false)]
    ∧ (add_message (fresh_session "w8") "user" "eight message cap check" false).messages.length ≤ 8 :=
  ⟨by decide,
   C8_messages_bound [("w8", "user", "eight message cap check", false)]
     ("w8", add_message (fresh_session "w8") "user" "eight message cap check" false)
     (by decide)⟩

/-- Nine alternating user/assistant messages on one session: the ninth
call folds away the oldest user message after recounting, leaving
`total_exchanges = 5` while only 4 user messages remain stored. -/
def c9_calls : List (String × String × String × Bool) :=
  [("s", "user", "q", false), ("s", "assistant", "r", false),
   ("s", "user", "q", false), ("s", "assistant", "r", false),
   ("s", "user", "q", false), ("s", "assistant", "r", false),
   ("s", "user", "q", false), ("s", "assistant", "r", false),
   ("s", "user", "q", false)]

/-- C9 counterexample: after this concrete sequence, the stored session's
`total_exchanges` differs from the number of user messages in the
currently stored verbatim list (5 versus 4): the counter is recomputed
before compression drops old messages. -/
theorem C9_counterexample :
    ∃ p ∈ run_calls c9_calls,
      p.2.total_exchanges ≠ (p.2.messages.filter (fun m => m.role == "user")).length := by
  decide

/-- C9 as amended: after every `add_message` call, `total_exchanges`
equals the number of user-role messages in the list formed by appending
the new message to the previously stored list, before any compression
performed by the same call (compression never updates the counter, so it
can exceed the stored user-message count and can decrease on later calls). -/
theorem C9_exchange_count (s : ConversationMemory) (r c : String) (v : Bool) :
    (add_message s r c v).total_exchanges =
      ((s.messages ++ [(⟨r, c, v⟩ : ChatMessage)]).filter (fun m => m.role == "user")).length := by
  unfold add_message
  dsimp only
  by_cases ht : (s.messages ++ [(⟨r, c, v⟩ : ChatMessage)]).length > SUMMARY_TRIGGER
  · rw [if_pos ht, compress_total_exchanges]
  · rw [if_neg ht]

/-- C6 counterexample: `get_session_stats` on an unknown session id grows
the stored session map (it inserts a fresh empty session), so the claim
that neither operation changes the map fails. -/
theorem C6_counterexample : (get_session_stats [] "s").2 ≠ [] := by decide

/-- C6 as amended: for a session id with no stored session, `clear_session`
is a no-op leaving the map unchanged, and `get_session_stats` reports the
empty result (zero messages, zero exchanges, no summary, no entities) but
inserts a fresh empty session for that id into the stored session map. -/
theorem C6_missing_session (st : MMState) (sid : String)
    (h : st.find? (fun p => p.1 == sid) = none) :
    clear_session st sid = st
    ∧ (get_session_stats st sid).1 = ⟨sid, 0, 0, false, 0, []⟩
    ∧ (get_session_stats st sid).2 = st ++ [(sid, fresh_session sid)] := by
  have hany : st.any (fun p => p.1 == sid) = false := by
    rw [List.any_eq_false]
    intro x hx
    have := List.find?_eq_none.mp h x hx
    simpa using this
  refine ⟨by simp [clear_session, hany], ?_, ?_⟩
  · simp [get_session_stats, get_or_create_session, h, fresh_session]
  · simp [get_session_stats, get_or_create_session, h]

/-- Witness for C6 as amended, on a concrete one-session map and an absent
session id. -/
theorem C6_witness :
    clear_session [("other", fresh_session "other")] "s" = [("other", fresh_session "other")]
    ∧ (get_session_stats [("other", fresh_session "other")] "s").1 = ⟨"s", 0, 0, false, 0, []⟩
    ∧ (get_session_stats [("other", fresh_session "other")] "s").2 =
        [("other", fresh_session "other")] ++ [("s", fresh_session "s")] :=
  C6_missing_session [("other", fresh_session "other")] "s" (by decide)

/- ### Plan steps, worker-node query lookup and routing (master_agent.py) -/

/-- A plan step `{"agent": ..., "query": ...}` produced by the Planner and
consumed by the worker nodes and the router. -/
structure PlanStep where
  agent : String
  query : String
deriving DecidableEq, Repr

/-- The query-lookup pattern shared by all worker nodes
(`next((step['query'] for step in state['plan'] if step['agent'] == A),
state['input_query'])`): the query of the first plan step naming the
agent, falling back to the whole user query. -/
def agent_query (plan : List PlanStep) (agent input_query : String) : String :=
  match plan.find? (fun step => step.agent == agent) with
  | some step => step.query
  | none => input_query

/-- Query selected by `iqvia_node`. -/
def iqvia_node_query (plan : List PlanStep) (input_query : String) : String :=
  agent_query plan "iqvia" input_query

/-- Query selected by `exim_node`. -/
def exim_node_query (plan : List PlanStep) (input_query : String) : String :=
  agent_query plan "exim" input_query

/-- Query selected by `patent_node`. -/
def patent_node_query (plan : List PlanStep) (input_query : String) : String :=
  agent_query plan "patent" input_query

/-- Query selected by `clinical_node`. -/
def clinical_node_query (plan : List PlanStep) (input_query : String) : String :=
  agent_query plan "clinical" input_query

/-- Query selected by `web_node`. -/
def web_node_query (plan : List PlanStep) (input_query : String) : String :=
  agent_query plan "web" input_query

/-- Embedding of `route_step` (master_agent.py): collect a route entry for
every plan step naming a known worker, in plan order; with no routes the
router returns the string "synthesizer" instead of a route list. -/
def route_step (plan : List PlanStep) : List String ⊕ String :=
  let routes := plan.filterMap (fun step =>
    if step.agent == "iqvia" then some "iqvia"
    else if step.agent == "exim" then some "exim"
    else if step.agent == "patent" then some "patent"
    else if step.agent == "clinical" then some "clinical"
    else if step.agent == "web" then some "web"
    else none)
  if routes.isEmpty then Sum.inr "synthesizer" else Sum.inl routes

/-- First-match behaviour of `List.find?` over a split list. -/
theorem find_first (pre post : List PlanStep) (step : PlanStep) (a : String)
    (hpre : ∀ t ∈ pre, (t.agent == a) = false) (hstep : (step.agent == a) = true) :
    (pre ++ step :: post).find? (fun t => t.agent == a) = some step := by
  induction pre with
  | nil =>
    rw [List.nil_append]
    exact List.find?_cons_of_pos _ hstep
  | cons hd tl ih =>
    rw [List.cons_append, List.find?_cons_of_neg _ (by simp [hpre hd (by simp)])]
    exact ih (fun t ht => hpre t (by simp [ht]))

/-- C1 counterexample: in a plan naming the source "iqvia" twice, the
worker-node lookup returns the query of the first matching step ("q1"),
not the query of the last step naming that source ("q2"). -/
theorem C1_counterexample :
    iqvia_node_query [⟨"iqvia", "q1"⟩, ⟨"iqvia", "q2"⟩] "orig" = "q1"
    ∧ iqvia_node_query [⟨"iqvia", "q1"⟩, ⟨"iqvia", "q2"⟩] "orig" ≠ "q2" := by
  decide

/-- C1 as amended: for every plan in which a source appears in one or more
steps, the dispatched lookup for that source uses the query of the first
step naming that source, and for a source not named by any step the whole
user query is used. -/
theorem C1_first_match_lookup :
    (∀ (pre post : List PlanStep) (step : PlanStep) (a iq : String),
        (∀ t ∈ pre, (t.agent == a) = false) → (step.agent == a) = true →
        agent_query (pre ++ step :: post) a iq = step.query)
    ∧ (∀ (plan : List PlanStep) (a iq : String),
        (∀ t ∈ plan, (t.agent == a) = false) →
        agent_query plan a iq = iq) := by
  constructor
  · intro pre post step a iq hpre hstep
    unfold agent_query
    rw [find_first pre post step a hpre hstep]
  · intro plan a iq hall
    unfold agent_query
    rw [List.find?_eq_none.mpr (by intro x hx; simp [hall x hx])]

/-- Witness for C1 as amended: the first-match case on a duplicate plan and
the fallback case on a plan without the source. -/
theorem C1_witness :
    agent_query ([] ++ (⟨"iqvia", "q1"⟩ : PlanStep) :: [⟨"iqvia", "q2"⟩]) "iqvia" "orig" = "q1"
    ∧ agent_query [⟨"web", "w"⟩] "iqvia" "orig" = "orig" :=
  ⟨C1_first_match_lookup.1 [] [⟨"iqvia", "q2"⟩] ⟨"iqvia", "q1"⟩ "iqvia" "orig"
     (by intro t ht; simp at ht) (by decide),
   C1_first_match_lookup.2 [⟨"web", "w"⟩] "iqvia" "orig" (by decide)⟩

/- ### Python values (JSON-shaped data flowing through the pipeline) -/

/-- Python values produced by `json.loads` and manipulated by the planner
and the visual generator.  Python ints and floats are kept separate (as in
`isinstance` checks); floats are modelled as exact rationals, which agrees
with the source on every property stated in this file (none depends on
float rounding). -/
inductive PyVal where
  | none
  | bool (b : Bool)
  | int (n : Int)
  | float (q : ℚ)
  | str (s : String)
  | list (xs : List PyVal)
  | dict (fields : List (String × PyVal))

/-- Lookup of a string key in a Python dict (keys are unique, so the first
match is the value). -/
def dict_get (fields : List (String × PyVal)) (key : String) : Option PyVal :=
  (fields.find? (fun p => p.1 == key)).map (fun p => p.2)

/-- Python truthiness. -/
def PyVal.truthy : PyVal → Bool
  | .none => false
  | .bool b => b
  | .int n => n != 0
  | .float q => q != 0
  | .str s => s != ""
  | .list xs => !xs.isEmpty
  | .dict fs => !fs.isEmpty

/-- Python `v == s` for a string literal `s`: equality between a string
and a non-string value is `False`, never an error. -/
def pyEqStr (v : PyVal) (s : String) : Bool :=
  match v with
  | .str t => t == s
  | _ => false

/-- Whether a value is a Python dict. -/
def is_dict : PyVal → Bool
  | .dict _ => true
  | _ => false

/- ### Planner: planner_node (master_agent.py), claim C4 -/

/-- Embedding of the parse-and-validate phase of `planner_node`.  The
argument is the language-model response: `Option.none` when the response is
not valid JSON (`json.loads` raises).  Inside the `try` block the code
reads `plan_json.get("steps", [])` (raising `AttributeError` unless the
top-level value is a dict) and then iterates the steps calling
`step.get(...)` on each (raising unless every element is a dict); any
exception is caught and yields the empty plan. -/
def planner_plan (resp : Option PyVal) : List PyVal :=
  match resp with
  | Option.none => []
  | some (.dict fields) =>
    match (dict_get fields "steps").getD (.list []) with
    | .list steps => if steps.all is_dict then steps else []
    | _ => []
  | some _ => []

/-- Whether the language-model response is parseable as a JSON object
carrying a "steps" list. -/
def has_steps_list : Option PyVal → Bool
  | some (.dict fields) =>
    match dict_get fields "steps" with
    | some (.list _) => true
    | _ => false
  | _ => false

/-- C4: for every language-model response that is not parseable as a JSON
object with a "steps" list, the Planner does not raise: `planner_plan`
returns the empty step list, and routing an empty plan goes straight to
the synthesizer, so no source lookups are performed. -/
theorem C4_plan_parse_degrades (resp : Option PyVal)
    (h : has_steps_list resp = false) :
    planner_plan resp = [] ∧ route_step [] = Sum.inr "synthesizer" := by
  refine ⟨?_, by decide⟩
  cases resp with
  | none => rfl
  | some v =>
    cases v with
    | dict fields =>
      show (match (dict_get fields "steps").getD (.list []) with
            | .list steps => if steps.all is_dict then steps else []
            | _ => []) = []
      cases hg : dict_get fields "steps" with
      | none => rfl
      | some sv =>
        cases sv with
        | list xs =>
          exfalso
          have : has_steps_list (some (.dict fields)) = true := by
            show (match dict_get fields "steps" with
                  | some (.list _) => true
                  | _ => false) = true
            rw [hg]
          rw [h] at this
          exact Bool.false_ne_true this
        | none => rfl
        | bool b => rfl
        | int n => rfl
        | float q => rfl
        | str s => rfl
        | dict gs => rfl
    | none => rfl
    | bool b => rfl
    | int n => rfl
    | float q => rfl
    | str s => rfl
    | list xs => rfl

/-- Witness for C4 at a response that is valid JSON but not an object with
a steps list. -/
theorem C4_witness :
    planner_plan (some (.str "model rambled instead of emitting steps")) = []
    ∧ route_step [] = Sum.inr "synthesizer" :=
  C4_plan_parse_degrades (some (.str "model rambled instead of emitting steps")) (by rfl)

/- ### Python operational helpers for the visual generator
Fallible Python operations return `Except String`; the error string names
the Python exception that the corresponding source expression raises. -/

/-- Python `v.get(key, default)`: only dicts have `.get`. -/
def pyGet (v : PyVal) (key : String) (default : PyVal) : Except String PyVal :=
  match v with
  | .dict fields => .ok ((dict_get fields key).getD default)
  | _ => .error "AttributeError: get"

/-- Python `v[key]` for a string key. -/
def pyIndex (v : PyVal) (key : String) : Except String PyVal :=
  match v with
  | .dict fields =>
    match dict_get fields key with
    | some w => .ok w
    | Option.none => .error "KeyError"
  | _ => .error "TypeError: not subscriptable"

/-- Python `len(v)`. -/
def pyLen (v : PyVal) : Except String Nat :=
  match v with
  | .str s => .ok s.length
  | .list xs => .ok xs.length
  | .dict fs => .ok fs.length
  | _ => .error "TypeError: len"

/-- Python iteration `for x in v`: lists yield elements, strings yield
one-character strings, dicts yield their keys. -/
def pyIter (v : PyVal) : Except String (List PyVal)  :=
  match v with
  | .list xs => .ok xs
  | .str s => .ok (s.data.map (fun c => .str (String.mk [c])))
  | .dict fs => .ok (fs.map (fun p => .str p.1))
  | _ => .error "TypeError: not iterable"

/-- Python `v[:n]`. -/
def pySlice (v : PyVal) (n : Nat) : Except String PyVal :=
  match v with
  | .str s => .ok (.str (pyTake s n))
  | .list xs => .ok (.list (xs.take n))
  | _ => .error "TypeError: not subscriptable"

/-- Python `a + b` as used by the source (string and list concatenation). -/
def pyAdd (a b : PyVal) : Except String PyVal :=
  match a, b with
  | .str x, .str y => .ok (.str (x ++ y))
  | .list x, .list y => .ok (.list (x ++ y))
  | _, _ => .error "TypeError: unsupported operand"

/-- Python `x or y`. -/
def pyOr (a b : PyVal) : PyVal :=
  if a.truthy then a else b

/-- Python `str(v)`.  Exact for the values the source renders (strings and
ints); non-integral floats are rendered as exact fractions and containers
opaquely — no stated property depends on those renderings. -/
def pyStr : PyVal → String
  | .none => "None"
  | .bool b => if b then "True" else "False"
  | .int n => toString n
  | .float q => if q.den == 1 then toString q.num ++ ".0" else toString q.num ++ "/" ++ toString q.den
  | .str s => s
  | .list _ => "[...]"
  | .dict _ => "\x7b...\x7d"

/-- Python `needle in v` for a string needle: substring test on strings,
element equality on lists, key membership on dicts, `TypeError` otherwise. -/
def pyContainsStr (needle : String) (v : PyVal) : Except String Bool :=
  match v with
  | .str s => .ok (strContains s needle)
  | .list xs => .ok (xs.any (fun w => pyEqStr w needle))
  | .dict fs => .ok (fs.any (fun p => p.1 == needle))
  | _ => .error "TypeError: argument of type is not iterable"

/-- Python `==` restricted to hashable (dict-key) values: numeric values
compare across int/float/bool, strings compare to strings. -/
def hashableEq : PyVal → PyVal → Bool
  | .none, .none => true
  | .bool a, .bool b => a == b
  | .int a, .int b => a == b
  | .float a, .float b => a == b
  | .int a, .float b => (a : ℚ) == b
  | .float a, .int b => a == (b : ℚ)
  | .bool a, .int b => (if a then (1 : Int) else 0) == b
  | .int a, .bool b => a == (if b then (1 : Int) else 0)
  | .bool a, .float b => (if a then (1 : ℚ) else 0) == b
  | .float a, .bool b => a == (if b then (1 : ℚ) else 0)
  | .str a, .str b => a == b
  | _, _ => false

/-- Increment the counter for `k` in an insertion-ordered counting map
(the `statuses[status] = statuses.get(status, 0) + 1` pattern). -/
def bump : List (PyVal × Nat) → PyVal → List (PyVal × Nat)
  | [], k => [(k, 1)]
  | (k1, n) :: rest, k =>
    if hashableEq k1 k then (k1, n + 1) :: rest else (k1, n) :: bump rest k

/-- Count occurrences of each value in encounter order, raising
`TypeError` on unhashable keys exactly where Python's dict would. -/
def count_values_aux (acc : List (PyVal × Nat)) : List PyVal → Except String (List (PyVal × Nat))
  | [] => .ok acc
  | k :: ks =>
    match k with
    | .list _ => .error "TypeError: unhashable type"
    | .dict _ => .error "TypeError: unhashable type"
    | _ => count_values_aux (bump acc k) ks

/-- Counting map for the status/phase pie charts. -/
def count_values (ks : List PyVal) : Except String (List (PyVal × Nat)) :=
  count_values_aux [] ks

/-- Map a fallible function over a list, propagating the first error
(Python loop semantics; the counting order is restored by `bump`). -/
def exceptMapM (f : α → Except String β) : List α → Except String (List β)
  | [] => .ok []
  | x :: xs =>
    match f x with
    | .error e => .error e
    | .ok y =>
      match exceptMapM f xs with
      | .error e => .error e
      | .ok ys => .ok (y :: ys)

/- ### Number parsing (int(), float()) and string sorting -/

/-- All characters are ASCII digits. -/
def allDigits (l : List Char) : Bool :=
  l.all Char.isDigit

/-- Numeric value of a digit run. -/
def digitsVal (l : List Char) : Nat :=
  l.foldl (fun a c => a * 10 + (c.toNat - 48)) 0

/-- Split a character list on a one-character separator (Python
`s.split(sep)` for the single-character separators used by the source). -/
def splitOnChar (sep : Char) : List Char → List (List Char)
  | [] => [[]]
  | c :: cs =>
    if c == sep then [] :: splitOnChar sep cs
    else
      match splitOnChar sep cs with
      | [] => [[c]]
      | p :: ps => (c :: p) :: ps

/-- Python `int(s)` on a string: strip whitespace, optional sign, digits;
raises ValueError otherwise.  (Underscore digit grouping, accepted by
Python, is not produced by any data here and is not modelled.) -/
def pyIntString (s : String) : Except String Int :=
  let t := (pyStrip s).data
  let signed : Int × List Char :=
    match t with
    | '+' :: r => (1, r)
    | '-' :: r => (-1, r)
    | r => (1, r)
  if !signed.2.isEmpty && allDigits signed.2 then
    .ok (signed.1 * digitsVal signed.2)
  else
    .error "ValueError: invalid literal for int"

/-- Python `float(s)` on the decimal forms used by the data
(optional sign, digits with an optional fractional part); exponent and
inf/nan forms are not produced here and parse as failures. -/
def pyFloatString (s : String) : Option ℚ :=
  let t := (pyStrip s).data
  let signed : ℚ × List Char :=
    match t with
    | '+' :: r => (1, r)
    | '-' :: r => (-1, r)
    | r => (1, r)
  match splitOnChar '.' signed.2 with
  | [a] =>
    if !a.isEmpty && allDigits a then some (signed.1 * digitsVal a) else Option.none
  | [a, b] =>
    if (!a.isEmpty || !b.isEmpty) && allDigits a && allDigits b then
      some (signed.1 * ((digitsVal a : ℚ) + (digitsVal b : ℚ) / (10 : ℚ) ^ b.length))
    else Option.none
  | _ => Option.none

/-- Insert into an ascending list of strings. -/
def insertSorted (s : String) : List String → List String
  | [] => [s]
  | t :: ts => if s < t then s :: t :: ts else t :: insertSorted s ts

/-- Python `sorted` on a list of strings (code-point lexicographic). -/
def sortStrings (l : List String) : List String :=
  l.foldr insertSorted []

/- ### Visual generator: generate_visuals (master_agent.py) -/

/-- The recurring five-colour palette literal. -/
def color5 : PyVal :=
  .list [.str "#FF6384", .str "#36A2EB", .str "#FFCE56", .str "#4BC0C0", .str "#9966FF"]

/-- Embedding of the nested `parse_market_size` helper of the iqvia
branch: numbers pass through unchanged; strings are lowercased, stripped
of commas, scaled by 1000 when tagged "billion", and parsed as floats,
with any failure yielding the int 0. -/
def parse_market_size (val : PyVal) : PyVal :=
  match val with
  | .int _ => val
  | .float _ => val
  | .bool _ => val
  | .str s0 =>
    let v := pyStrip (pyReplace (pyLower s0) "," "")
    let scaled : ℚ × String :=
      if strContains v "billion" then (1000, pyStrip (pyReplace v "billion" ""))
      else if strContains v "million" then (1, pyStrip (pyReplace v "million" ""))
      else (1, v)
    match pyFloatString (pyStrip (pyReplace scaled.2 "$" "")) with
    | some q => .float (q * scaled.1)
    | Option.none => .int 0
  | _ => .int 0

/-- Embedding of the exim-branch loop body of `generate_visuals` for one
trade record: optional nested country data, a pie of top import sources,
a line chart of the yearly trend (dict or list shape), and always one
trade-summary table. -/
def exim_item_visuals (item : PyVal) : Except String (List PyVal) := do
  let dDrug ← pyGet item "drug" (.str "Unknown")
  let dHs ← pyGet item "hs_desc" dDrug
  let drug_name ← pyGet item "drug_name" dHs
  let hasCD ← pyContainsStr "country_data" item
  let country_info ←
    if hasCD then do
      let cd ← pyIndex item "country_data"
      match cd with
      | .dict [] => pure PyVal.none
      | .dict ((_, info) :: _) => pure info
      | _ => Except.error "AttributeError: items"
    else pure PyVal.none
  let source_data := if country_info.truthy then country_info else item
  let sources ← pyGet source_data "top_import_sources" (.list [])
  let pieVis ←
    if sources.truthy then do
      let elems ← pyIter sources
      let labels ← exceptMapM (fun s => pyGet s "country" (.str "Unknown")) elems
      let dataVals ← exceptMapM (fun s => do
        let p ← pyGet s "percent" (.int 0)
        pyGet s "percentage" p) elems
      pure [PyVal.dict [("type", .str "pie"),
        ("title", .str ("Top Import Sources for " ++ pyStr drug_name)),
        ("labels", .list labels),
        ("datasets", .list [PyVal.dict [("data", .list dataVals),
          ("backgroundColor", color5)]])]]
    else pure ([] : List PyVal)
  let yearly_trend ← pyGet source_data "yearly_trend" (.dict [])
  let lineVis ←
    if yearly_trend.truthy then
      match yearly_trend with
      | .dict fs => do
        let years := sortStrings (fs.map (fun p => p.1))
        let values := years.map (fun y => (dict_get fs y).getD PyVal.none)
        pure [PyVal.dict [("type", .str "line"),
          ("title", .str ("Yearly Volume Trend for " ++ pyStr drug_name)),
          ("labels", .list (years.map PyVal.str)),
          ("datasets", .list [PyVal.dict [("label", .str "Volume (MT)"),
            ("data", .list values), ("borderColor", .str "#36A2EB"),
            ("fill", .bool false)]])]]
      | .list ts => do
        let labels ← exceptMapM (fun t => do
          let y ← pyGet t "year" (.str "")
          pure (PyVal.str (pyStr y))) ts
        let importVals ← exceptMapM (fun t => pyGet t "import_mt" (.int 0)) ts
        let exportVals ← exceptMapM (fun t => pyGet t "export_mt" (.int 0)) ts
        pure [PyVal.dict [("type", .str "line"),
          ("title", .str ("Yearly Import/Export Trend for " ++ pyStr drug_name)),
          ("labels", .list labels),
          ("datasets", .list [
            PyVal.dict [("label", .str "Import (MT)"), ("data", .list importVals),
              ("borderColor", .str "#36A2EB"), ("fill", .bool false)],
            PyVal.dict [("label", .str "Export (MT)"), ("data", .list exportVals),
              ("borderColor", .str "#FF6384"), ("fill", .bool false)]])]]
      | _ => pure ([] : List PyVal)
    else pure ([] : List PyVal)
  let dImp ← pyGet item "import_volume_mt" (.str "N/A")
  let import_vol ← pyGet source_data "import_volume_mt" dImp
  let dExp ← pyGet item "export_volume_mt" (.str "N/A")
  let export_vol ← pyGet source_data "export_volume_mt" dExp
  let import_val ← pyGet source_data "import_value_million_usd" (.str "N/A")
  let export_val ← pyGet source_data "export_value_million_usd" (.str "N/A")
  let category ← pyGet item "category" (.str "N/A")
  let tableVis := PyVal.dict [("type", .str "table"),
    ("title", .str ("Trade Summary for " ++ pyStr drug_name)),
    ("columns", .list [.str "Metric", .str "Value"]),
    ("rows", .list [
      .list [.str "Drug Name", drug_name],
      .list [.str "Category", category],
      .list [.str "Import Volume (MT)", .str (pyStr import_vol)],
      .list [.str "Export Volume (MT)", .str (pyStr export_vol)],
      .list [.str "Import Value (USD M)", .str (pyStr import_val)],
      .list [.str "Export Value (USD M)", .str (pyStr export_val)]])]
  pure (pieVis ++ lineVis ++ [tableVis])

/-- Embedding of the iqvia branch of `generate_visuals`: a market-size bar
(string sizes normalised to millions), a growth-rate bar, and a capped
market table with the key trend truncated at 50 characters. -/
def iqvia_visuals (data : PyVal) : Except String (List PyVal) := do
  let n ← pyLen data
  if n > 0 then do
    let d5v ← pySlice data 5
    let d5 ← pyIter d5v
    let areas ← exceptMapM (fun d => do
      let ta ← pyGet d "therapeutic_area" (.str "Unknown")
      pyGet d "area" ta) d5
    let market_sizes ← exceptMapM (fun d => do
      let v ← pyGet d "market_size_usd" (.int 0)
      pure (parse_market_size v)) d5
    let msVis :=
      if market_sizes.any PyVal.truthy then
        [PyVal.dict [("type", .str "bar"),
          ("title", .str "Market Size Comparison (USD Million)"),
          ("labels", .list areas),
          ("datasets", .list [PyVal.dict [("label", .str "Market Size (M)"),
            ("data", .list market_sizes), ("backgroundColor", color5)]])]]
      else []
    let growth_rates ← exceptMapM (fun d => do
      let g ← pyGet d "growth_rate" (.int 0)
      pyGet d "cagr_percent" g) d5
    let grVis :=
      if growth_rates.any PyVal.truthy then
        [PyVal.dict [("type", .str "bar"),
          ("title", .str "Growth Rate Comparison (CAGR %)"),
          ("labels", .list areas),
          ("datasets", .list [PyVal.dict [("label", .str "CAGR %"),
            ("data", .list growth_rates), ("backgroundColor", .str "#4BC0C0")]])]]
      else []
    let d10v ← pySlice data 10
    let d10 ← pyIter d10v
    let rows ← exceptMapM (fun d => do
      let ta ← pyGet d "therapeutic_area" (.str "N/A")
      let a1 ← pyGet d "area" ta
      let a2 ← pyGet d "market_size_usd" (.str "N/A")
      let gDef ← pyGet d "growth_rate" (.str "N/A")
      let gr ← pyGet d "cagr_percent" gDef
      let a4 ← pyGet d "competition_level" (.str "N/A")
      let ktEmpty ← pyGet d "key_trend" (.str "")
      let ktLen ← pyLen ktEmpty
      let a5 ←
        if ktLen > 50 then do
          let kt ← pyGet d "key_trend" (.str "N/A")
          let sl ← pySlice kt 50
          pyAdd sl (.str "...")
        else pyGet d "key_trend" (.str "N/A")
      pure (PyVal.list [a1, a2, .str (pyStr gr ++ "%"), a4, a5])) d10
    let tableVis := PyVal.dict [("type", .str "table"),
      ("title", .str "Market Intelligence Data"),
      ("columns", .list [.str "Therapeutic Area", .str "Market Size", .str "CAGR %",
        .str "Competition", .str "Key Trend"]),
      ("rows", .list rows)]
    pure (msVis ++ grVis ++ [tableVis])
  else pure []

/-- Embedding of the expiry-year expression of the patent branch:
`int(d[1].split("-")[0]) if "-" in d[1] else 2025` for one record's
expiry-date value. -/
def expiry_year_cell (d1 : PyVal) : Except String PyVal := do
  let c ← pyContainsStr "-" d1
  if c then
    match d1 with
    | .str s =>
      match pyIntString (((splitOnChar '-' s.data).map String.mk).headD "") with
      | .ok y => .ok (.int y)
      | .error e => .error e
    | _ => .error "AttributeError: split"
  else
    .ok (.int 2025)

/-- The `expiry_data` comprehension of the patent branch: for each record
with a truthy expiry date, a pair of the 15-character molecule/title label
and the raw expiry-date value. -/
def expiry_pairs : List PyVal → Except String (List (PyVal × PyVal))
  | [] => .ok []
  | d :: ds => do
    let e ← pyGet d "expiry_date" PyVal.none
    if e.truthy then do
      let tEmpty ← pyGet d "title" (.str "")
      let mol ← pyGet d "molecule" tEmpty
      let label ← pySlice mol 15
      let rest ← expiry_pairs ds
      pure ((label, e) :: rest)
    else
      expiry_pairs ds

/-- Embedding of the patent branch of `generate_visuals`: a capped patent
table, a bar of expiry years over the first five dated records, and a
status-distribution pie. -/
def patent_visuals (data : PyVal) : Except String (List PyVal) := do
  if data.truthy then do
    let d10v ← pySlice data 10
    let d10 ← pyIter d10v
    let rows ← exceptMapM (fun d => do
      let mDrug ← pyGet d "drug_name" (.str "N/A")
      let molecule ← pyGet d "molecule" mDrug
      let pNum ← pyGet d "patent_number" (.str "N/A")
      let pid ← pyGet d "patent_id" pNum
      let status ← pyGet d "status" (.str "N/A")
      let expiry ← pyGet d "expiry_date" (.str "N/A")
      let ownEmpty ← pyGet d "patent_owner" (.str "")
      let aEmpty ← pyGet d "assignee" ownEmpty
      let aLen ← pyLen aEmpty
      let assignee ←
        if aLen > 25 then do
          let ownNA ← pyGet d "patent_owner" (.str "N/A")
          let a ← pyGet d "assignee" ownNA
          let sl ← pySlice a 25
          pyAdd sl (.str "...")
        else do
          let ownNA ← pyGet d "patent_owner" (.str "N/A")
          pyGet d "assignee" ownNA
      pure (PyVal.list [molecule, pid, status, expiry, assignee])) d10
    let tableVis := PyVal.dict [("type", .str "table"),
      ("title", .str "Patent Information"),
      ("columns", .list [.str "Molecule", .str "Patent ID", .str "Status",
        .str "Expiry Date", .str "Assignee"]),
      ("rows", .list rows)]
    let dAll ← pyIter data
    let expiry_data ← expiry_pairs dAll
    let barVis ←
      if !expiry_data.isEmpty then do
        let first5 := expiry_data.take 5
        let yrs ← exceptMapM (fun p => expiry_year_cell p.2) first5
        pure [PyVal.dict [("type", .str "bar"),
          ("title", .str "Patent Expiry Timeline"),
          ("labels", .list (first5.map (fun p => p.1))),
          ("datasets", .list [PyVal.dict [("label", .str "Expiry Year"),
            ("data", .list yrs), ("backgroundColor", .str "#9966FF")]])]]
      else pure ([] : List PyVal)
    let statusKeys ← exceptMapM (fun d => pyGet d "status" (.str "Unknown")) dAll
    let statuses ← count_values statusKeys
    let pieVis :=
      if !statuses.isEmpty then
        [PyVal.dict [("type", .str "pie"),
          ("title", .str "Patent Status Distribution"),
          ("labels", .list (statuses.map (fun p => p.1))),
          ("datasets", .list [PyVal.dict [("data", .list (statuses.map (fun p => PyVal.int p.2))),
            ("backgroundColor", .list [.str "#10B981", .str "#EF4444", .str "#F59E0B",
              .str "#6366F1", .str "#8B5CF6"])]])]]
      else []
    pure ([tableVis] ++ barVis ++ pieVis)
  else pure []

/-- Embedding of the clinical branch of `generate_visuals`: a capped
trials table (alias fallback chains), a phase-distribution pie, and a
status-distribution pie. -/
def clinical_visuals (data : PyVal) : Except String (List PyVal) := do
  if data.truthy then do
    let d10v ← pySlice data 10
    let d10 ← pyIter d10v
    let rows ← exceptMapM (fun d => do
      let nct2 ← pyGet d "nct_id" (.str "N/A")
      let nct1 ← pyGet d "trial_id" nct2
      let c1 ← pyGet d "NCTId" nct1
      let tEmpty2 ← pyGet d "drug_name" (.str "")
      let tEmpty1 ← pyGet d "drug" tEmpty2
      let tEmpty ← pyGet d "BriefTitle" tEmpty1
      let tLen ← pyLen (pyOr tEmpty (.str ""))
      let c2 ←
        if tLen > 40 then do
          let tNA2 ← pyGet d "drug_name" (.str "N/A")
          let tNA1 ← pyGet d "drug" tNA2
          let t ← pyGet d "BriefTitle" tNA1
          let sl ← pySlice t 40
          pyAdd sl (.str "...")
        else do
          let tNA2 ← pyGet d "drug_name" (.str "N/A")
          let tNA1 ← pyGet d "drug" tNA2
          pyGet d "BriefTitle" tNA1
      let ph1 ← pyGet d "phase" (.str "N/A")
      let ph ← pyGet d "Phase" ph1
      let c3 := pyOr ph (.str "N/A")
      let st1 ← pyGet d "status" (.str "N/A")
      let c4 ← pyGet d "OverallStatus" st1
      let spEmpty1 ← pyGet d "sponsor" (.str "")
      let spEmpty ← pyGet d "LeadSponsorName" spEmpty1
      let spLen ← pyLen (pyOr spEmpty (.str ""))
      let c5 ←
        if spLen > 25 then do
          let spNA1 ← pyGet d "sponsor" (.str "N/A")
          let sp ← pyGet d "LeadSponsorName" spNA1
          let sl ← pySlice sp 25
          pyAdd sl (.str "...")
        else do
          let spNA1 ← pyGet d "sponsor" (.str "N/A")
          pyGet d "LeadSponsorName" spNA1
      let co1 ← pyGet d "country" (.str "N/A")
      let c6 ← pyGet d "LocationCountry" co1
      pure (PyVal.list [c1, c2, c3, c4, c5, c6])) d10
    let tableVis := PyVal.dict [("type", .str "table"),
      ("title", .str "Clinical Trials Data"),
      ("columns", .list [.str "Trial ID", .str "Title", .str "Phase", .str "Status",
        .str "Sponsor", .str "Country"]),
      ("rows", .list rows)]
    let dAll ← pyIter data
    let phaseKeys ← exceptMapM (fun d => do
      let p1 ← pyGet d "phase" (.str "Unknown")
      let p ← pyGet d "Phase" p1
      pure (pyOr p (.str "Unknown"))) dAll
    let phases ← count_values phaseKeys
    let phaseVis :=
      if !phases.isEmpty then
        [PyVal.dict [("type", .str "pie"),
          ("title", .str "Clinical Trials by Phase"),
          ("labels", .list (phases.map (fun p => p.1))),
          ("datasets", .list [PyVal.dict [("data", .list (phases.map (fun p => PyVal.int p.2))),
            ("backgroundColor", color5)]])]]
      else []
    let statusKeys ← exceptMapM (fun d => do
      let s1 ← pyGet d "status" (.str "Unknown")
      let s ← pyGet d "OverallStatus" s1
      pure (pyOr s (.str "Unknown"))) dAll
    let statuses ← count_values statusKeys
    let statusVis :=
      if !statuses.isEmpty then
        [PyVal.dict [("type", .str "pie"),
          ("title", .str "Clinical Trials by Status"),
          ("labels", .list (statuses.map (fun p => p.1))),
          ("datasets", .list [PyVal.dict [("data", .list (statuses.map (fun p => PyVal.int p.2))),
            ("backgroundColor", .list [.str "#10B981", .str "#3B82F6", .str "#F59E0B",
              .str "#EF4444", .str "#8B5CF6"])]])]]
      else []
    pure ([tableVis] ++ phaseVis ++ statusVis)
  else pure []

/-- Embedding of the per-result loop body of `generate_visuals`: strings
are skipped; a result with falsy records contributes nothing; otherwise
the source-specific branch runs, the web branch contributing nothing. -/
def result_visuals (result : PyVal) : Except String (List PyVal) :=
  match result with
  | .str _ => .ok []
  | .dict fields =>
    let agent := (dict_get fields "agent").getD (.str "")
    let data := (dict_get fields "data").getD (.list [])
    if !data.truthy then .ok []
    else if pyEqStr agent "exim" then
      match pyIter data with
      | .error e => .error e
      | .ok items =>
        match exceptMapM exim_item_visuals items with
        | .error e => .error e
        | .ok nested => .ok nested.flatten
    else if pyEqStr agent "iqvia" then iqvia_visuals data
    else if pyEqStr agent "patent" then patent_visuals data
    else if pyEqStr agent "clinical" then clinical_visuals data
    else if pyEqStr agent "web" then .ok []
    else .ok []
  | _ => .error "AttributeError: get"

/-- Embedding of `generate_visuals` (master_agent.py): concatenate the
descriptors of every result in order; the `query` argument is accepted
and unused, exactly as in the source. -/
def generate_visuals : List PyVal → String → Except String (List PyVal)
  | [], _ => .ok []
  | r :: rs, query =>
    match result_visuals r with
    | .error e => .error e
    | .ok v =>
      match generate_visuals rs query with
      | .error e => .error e
      | .ok vs => .ok (v ++ vs)

/- ### Claims C7 and C5: the Visualizer -/

/-- A result that the Visualizer must skip: a source-result dict whose
records list is falsy (e.g. empty), or a web-source result. -/
def empty_or_web (r : PyVal) : Bool :=
  match r with
  | .dict fields =>
    !((dict_get fields "data").getD (.list [])).truthy
      || pyEqStr ((dict_get fields "agent").getD (.str "")) "web"
  | _ => false

/-- A value equal to the string "web" is not equal to any other agent
string literal. -/
theorem pyEqStr_web (v : PyVal) (h : pyEqStr v "web" = true) :
    pyEqStr v "exim" = false ∧ pyEqStr v "iqvia" = false
    ∧ pyEqStr v "patent" = false ∧ pyEqStr v "clinical" = false := by
  cases v <;> simp_all [pyEqStr]

/-- An empty-records or web result contributes no descriptors. -/
theorem result_visuals_skip (r : PyVal) (hr : empty_or_web r = true) :
    result_visuals r = .ok [] := by
  cases r with
  | dict fields =>
    unfold empty_or_web at hr
    rw [Bool.or_eq_true] at hr
    show (let agent := (dict_get fields "agent").getD (.str "")
          let data := (dict_get fields "data").getD (.list [])
          if !data.truthy then Except.ok []
          else if pyEqStr agent "exim" then
            match pyIter data with
            | Except.error e => Except.error e
            | Except.ok items =>
              match exceptMapM exim_item_visuals items with
              | Except.error e => Except.error e
              | Except.ok nested => Except.ok nested.flatten
          else if pyEqStr agent "iqvia" then iqvia_visuals data
          else if pyEqStr agent "patent" then patent_visuals data
          else if pyEqStr agent "clinical" then clinical_visuals data
          else if pyEqStr agent "web" then Except.ok []
          else Except.ok []) = Except.ok []
    rcases hr with hd | hw
    · simp only [hd, if_true]
    · by_cases hd : (!((dict_get fields "data").getD (.list [])).truthy) = true
      · simp only [hd, if_true]
      · have hweb := pyEqStr_web _ hw
        simp only [hd, hw, hweb.1, hweb.2.1, hweb.2.2.1, hweb.2.2.2,
          if_true, if_false, Bool.false_eq_true]
  | str s => rfl
  | none => simp [empty_or_web] at hr
  | bool b => simp [empty_or_web] at hr
  | int n => simp [empty_or_web] at hr
  | float q => simp [empty_or_web] at hr
  | list xs => simp [empty_or_web] at hr

/-- C7: for every input result list, `generate_visuals` emits no
descriptors for any source result whose records list is empty (falsy) and
none for web-source results regardless of their records; a result list of
only empty-record or web results yields the empty descriptor list. -/
theorem C7_empty_and_web_skipped (results : List PyVal) (query : String)
    (h : ∀ r ∈ results, empty_or_web r = true) :
    generate_visuals results query = .ok [] := by
  induction results with
  | nil => rfl
  | cons r rs ih =>
    show (match result_visuals r with
          | Except.error e => Except.error e
          | Except.ok v =>
            match generate_visuals rs query with
            | Except.error e => Except.error e
            | Except.ok vs => Except.ok (v ++ vs)) = Except.ok []
    rw [result_visuals_skip r (h r (by simp)), ih (fun x hx => h x (by simp [hx]))]
    rfl

/-- Witness for C7: a patent result with zero records and a web result
with a nonempty record produce no visual descriptors. -/
theorem C7_witness :
    generate_visuals
      [.dict [("agent", .str "patent"), ("data", .list []), ("summary", .str "none")],
       .dict [("agent", .str "web"), ("data", .list [.dict [("title", .str "news item")]]),
              ("summary", .str "web hits")]]
      "metformin patents" = .ok [] :=
  C7_empty_and_web_skipped _ _ (by decide)

/-- Specification-side definition, following the spec's words only: the
integer leading year token of a date-like string (the leading digit run),
or nothing when the string has no leading digits. -/
def spec_leading_year (s : String) : Option Int :=
  let ds := s.data.takeWhile Char.isDigit
  if ds.isEmpty then Option.none else some (digitsVal ds)

/-- C5 counterexample: the non-empty expiry string "2030" has leading year
token 2030, yet the code's expiry-year expression yields the fallback 2025
(it only splits on "-", never parsing a hyphen-free year); moreover on
"abc-1" the parse raises a ValueError rather than falling back. -/
theorem C5_counterexample :
    spec_leading_year "2030" = some 2030
    ∧ expiry_year_cell (.str "2030") = .ok (.int 2025)
    ∧ (2025 : Int) ≠ 2030
    ∧ expiry_year_cell (.str "abc-1") = .error "ValueError: invalid literal for int" :=
  ⟨rfl, rfl, by decide, rfl⟩

/-- C5 as amended: for a record whose expiry-date string is non-empty, the
expiry-year bar value is the fixed fallback 2025 whenever the string
contains no hyphen (even if the whole string is a parseable year); when
the string contains a hyphen, the value is `int()` of the prefix before
the first hyphen, and the expression raises when that prefix is not an
integer literal. -/
theorem C5_expiry_parse (s : String) (_hne : s ≠ "") :
    (strContains s "-" = false → expiry_year_cell (.str s) = .ok (.int 2025))
    ∧ (∀ y : Int, strContains s "-" = true →
        pyIntString (((splitOnChar '-' s.data).map String.mk).headD "") = .ok y →
        expiry_year_cell (.str s) = .ok (.int y))
    ∧ (∀ e : String, strContains s "-" = true →
        pyIntString (((splitOnChar '-' s.data).map String.mk).headD "") = .error e →
        expiry_year_cell (.str s) = .error e) := by
  have key : expiry_year_cell (.str s) =
      (if strContains s "-" then
        (match pyIntString (((splitOnChar '-' s.data).map String.mk).headD "") with
         | .ok y => Except.ok (.int y)
         | .error e => Except.error e)
       else .ok (.int 2025)) := rfl
  refine ⟨?_, ?_, ?_⟩
  · intro h
    rw [key, h]
    rfl
  · intro y h hp
    rw [key, h, hp]
    rfl
  · intro e h hp
    rw [key, h, hp]
    rfl

/-- Witness for C5 as amended: a dashed date parses its leading field, a
dash-free string falls back to 2025. -/
theorem C5_witness :
    expiry_year_cell (.str "2020-05-01") = .ok (.int 2020)
    ∧ expiry_year_cell (.str "patented") = .ok (.int 2025) :=
  ⟨(C5_expiry_parse "2020-05-01" (by decide)).2.1 2020 (by rfl) (by rfl),
   (C5_expiry_parse "patented" (by decide)).1 (by rfl)⟩
